import Mathlib

set_option maxRecDepth 16384

/-!
Verification of the payroll core of `app.py` (a shift wage / bonus / tax
tracker). The pure logic functions of the source are embedded shallowly:
Python floats are modelled as rationals, Python `datetime.date` values as a
record of year, month and day, and the Google-Sheets rows as Lean structures.
Each definition below mirrors one function or code path of the source file.
-/

/-! ## Wage constants (src/app.py lines 35 to 45) -/

def RATE_DAY : ℚ := 2797
def RATE_EVE : ℚ := 376847 / 100
def DEDUCTION_RATE : ℚ := 636
def OFFSET_HOURS : ℚ := 1

def PENSION_RATE : ℚ := 4 / 100
def UNION_RATE : ℚ := 7 / 1000
def TAX_RATE_1 : ℚ := 3145 / 10000
def PERSONAL_ALLOWANCE : ℚ := 64926

/-- MONTH_MAP of the source, line 39: month number to Icelandic short name.
The Python dict raises on keys outside 1..12; the source only ever indexes it
with a month of a real date, so the out-of-range branch is never taken. -/
def MONTH_MAP : Nat → String
  | 1 => "Jan" | 2 => "Feb" | 3 => "Mar" | 4 => "Apr" | 5 => "Maí" | 6 => "Jún"
  | 7 => "Júl" | 8 => "Ágú" | 9 => "Sep" | 10 => "Okt" | 11 => "Nóv" | 12 => "Des"
  | _ => ""

/-! ## calculate_pay (src/app.py lines 156 to 161) -/

/-- Mirror of `calculate_pay(day_h, eve_h, sales)`: returns
(wages, bonus, wages + bonus). -/
def calculate_pay (day_h eve_h sales : ℚ) : ℚ × ℚ × ℚ :=
  let wages := day_h * RATE_DAY + eve_h * RATE_EVE
  let total_h := day_h + eve_h
  let threshold := max 0 ((total_h - OFFSET_HOURS) * DEDUCTION_RATE)
  let bonus := max 0 (sales - threshold)
  (wages, bonus, wages + bonus)

/-! ## calculate_net_salary (src/app.py lines 172 to 184) -/

/-- The dict returned by `calculate_net_salary`; field names follow the
keys of the Python dict literal. -/
structure NetBreakdown where
  gross : ℚ
  pension : ℚ
  union : ℚ
  tax_base : ℚ
  income_tax_calc : ℚ
  allowance : ℚ
  final_tax : ℚ
  net_salary : ℚ
  deriving DecidableEq

/-- Mirror of `calculate_net_salary(gross_salary, personal_allowance_usage)`;
the Python default for the second argument is 1.0. -/
def calculate_net_salary (gross_salary : ℚ) (personal_allowance_usage : ℚ) :
    NetBreakdown :=
  let pension := gross_salary * PENSION_RATE
  let union := gross_salary * UNION_RATE
  let tax_base := gross_salary - pension - union
  let income_tax := tax_base * TAX_RATE_1
  let allowance := PERSONAL_ALLOWANCE * personal_allowance_usage
  let final_tax := max 0 (income_tax - allowance)
  let net_salary := tax_base - final_tax
  { gross := gross_salary, pension := pension, union := union,
    tax_base := tax_base, income_tax_calc := income_tax,
    allowance := allowance, final_tax := final_tax, net_salary := net_salary }

/-! ## Theorems about calculate_pay -/

/-- C1: for nonnegative inputs, `calculate_pay` returns (wage, bonus, total)
with wage given by the two hourly tariffs, bonus the clamp of sales minus the
clamped threshold (hence nonnegative, and zero whenever sales is at most the
threshold), total the sum of wage and bonus; and the two concrete scenarios
from the spec evaluate as stated. -/
theorem calculate_pay_spec (day_h eve_h sales : ℚ)
    (hd : 0 ≤ day_h) (he : 0 ≤ eve_h) (hs : 0 ≤ sales) :
    (calculate_pay day_h eve_h sales).1 = day_h * RATE_DAY + eve_h * RATE_EVE ∧
    (calculate_pay day_h eve_h sales).2.1 =
      max 0 (sales - max 0 ((day_h + eve_h - OFFSET_HOURS) * DEDUCTION_RATE)) ∧
    0 ≤ (calculate_pay day_h eve_h sales).2.1 ∧
    (sales ≤ max 0 ((day_h + eve_h - OFFSET_HOURS) * DEDUCTION_RATE) →
      (calculate_pay day_h eve_h sales).2.1 = 0) ∧
    (calculate_pay day_h eve_h sales).2.2 =
      (calculate_pay day_h eve_h sales).1 + (calculate_pay day_h eve_h sales).2.1 ∧
    calculate_pay 8 0 150000 = (22376, 145548, 167924) ∧
    calculate_pay 0 0 0 = (0, 0, 0) := by
  refine ⟨rfl, rfl, le_max_left _ _, ?_, rfl, ?_, ?_⟩
  · intro h
    simp [calculate_pay, max_eq_left, sub_nonpos.mpr h]
  · norm_num [calculate_pay, RATE_DAY, RATE_EVE, DEDUCTION_RATE, OFFSET_HOURS,
      Prod.ext_iff, max_def]
  · norm_num [calculate_pay, RATE_DAY, RATE_EVE, DEDUCTION_RATE, OFFSET_HOURS,
      Prod.ext_iff, max_def]

/-- Witness for calculate_pay_spec at day_h = 8, eve_h = 0, sales = 150000. -/
theorem calculate_pay_spec_witness :
    (0 : ℚ) ≤ 8 ∧ (0 : ℚ) ≤ 0 ∧ (0 : ℚ) ≤ 150000 ∧
    (calculate_pay 8 0 150000).2.2 =
      (calculate_pay 8 0 150000).1 + (calculate_pay 8 0 150000).2.1 :=
  ⟨by norm_num, by norm_num, by norm_num,
    (calculate_pay_spec 8 0 150000 (by norm_num) (by norm_num) (by norm_num)).2.2.2.2.1⟩

/-- C9: when total hours stay within the grace period OFFSET_HOURS, the
threshold clamps to 0 and the bonus is the full sales amount. -/
theorem calculate_pay_within_grace (day_h eve_h sales : ℚ)
    (hd : 0 ≤ day_h) (he : 0 ≤ eve_h) (hs : 0 ≤ sales)
    (hg : day_h + eve_h ≤ OFFSET_HOURS) :
    max 0 ((day_h + eve_h - OFFSET_HOURS) * DEDUCTION_RATE) = 0 ∧
    (calculate_pay day_h eve_h sales).2.1 = sales := by
  have hth : max 0 ((day_h + eve_h - OFFSET_HOURS) * DEDUCTION_RATE) = 0 := by
    apply max_eq_left
    apply mul_nonpos_of_nonpos_of_nonneg
    · linarith
    · norm_num [DEDUCTION_RATE]
  refine ⟨hth, ?_⟩
  show max 0 (sales - max 0 ((day_h + eve_h - OFFSET_HOURS) * DEDUCTION_RATE)) = sales
  rw [hth, sub_zero, max_eq_right hs]

/-- Witness for calculate_pay_within_grace at day_h = 0, eve_h = 1, sales = 5. -/
theorem calculate_pay_within_grace_witness :
    (0 : ℚ) ≤ 0 ∧ (0 : ℚ) ≤ 1 ∧ (0 : ℚ) ≤ 5 ∧ (0 : ℚ) + 1 ≤ OFFSET_HOURS ∧
    (calculate_pay 0 1 5).2.1 = 5 :=
  ⟨by norm_num, by norm_num, by norm_num, by norm_num [OFFSET_HOURS],
    (calculate_pay_within_grace 0 1 5 (by norm_num) (by norm_num) (by norm_num)
      (by norm_num [OFFSET_HOURS])).2⟩

/-! ## Calendar dates, modelling Python datetime objects -/

/-- A Gregorian calendar date, modelling a Python `datetime` value as used by
`get_wage_month` (only the year, month and day attributes are read). -/
structure PyDate where
  year : Int
  month : Nat
  day : Nat
  deriving DecidableEq

/-- Gregorian leap year rule, as implemented by the Python datetime module. -/
def isLeap (y : Int) : Bool := (y % 4 == 0 && y % 100 != 0) || (y % 400 == 0)

/-- Number of days of month m of year y (Gregorian). -/
def daysInMonth (y : Int) (m : Nat) : Nat :=
  if m = 2 then (if isLeap y then 29 else 28)
  else if m = 4 ∨ m = 6 ∨ m = 9 ∨ m = 11 then 30
  else 31

/-- A PyDate is a real calendar date. -/
def PyDate.valid (d : PyDate) : Prop :=
  1 ≤ d.month ∧ d.month ≤ 12 ∧ 1 ≤ d.day ∧ d.day ≤ daysInMonth d.year d.month

instance (d : PyDate) : Decidable d.valid := by
  unfold PyDate.valid
  infer_instance

/-- The calendar successor of a date. -/
def nextDay (d : PyDate) : PyDate :=
  if d.day < daysInMonth d.year d.month then ⟨d.year, d.month, d.day + 1⟩
  else if d.month < 12 then ⟨d.year, d.month + 1, 1⟩
  else ⟨d.year + 1, 1, 1⟩

/-- Adding n days to a date, modelling Python date plus `timedelta(days=n)`. -/
def addDays (d : PyDate) : Nat → PyDate
  | 0 => d
  | n + 1 => addDays (nextDay d) n

/-- Digits of n in decimal, as characters. -/
def natChars (n : Nat) : List Char := Nat.toDigits 10 n

/-- Decimal rendering of an integer, as Python str does. -/
def intChars (n : Int) : List Char :=
  if n < 0 then '-' :: natChars n.natAbs else natChars n.toNat

/-- Two-digit zero-padded rendering, modelling the Python format spec 02d for
values below 100 (months and days always are). -/
def pad2Chars (n : Nat) : List Char := [Nat.digitChar (n / 10 % 10), Nat.digitChar (n % 10)]

/-- The period label built at src/app.py lines 169 and 170: the Python
f-string with the year, the zero-padded month and the MONTH_MAP name. -/
def wageLabelOf (y : Int) (m : Nat) : String :=
  String.mk (intChars y ++ '-' :: (pad2Chars m ++ ' ' :: '(' :: ((MONTH_MAP m).data ++ [')'])))

/-- The branch of `get_wage_month` taken once a date object is in hand
(src/app.py lines 167 to 170): a day of month at least 26 relabels the date
to the month of `date_obj.replace(day=1) + timedelta(days=32)`. -/
def wageMonthOfDate (d : PyDate) : String :=
  if 26 ≤ d.day then
    let next_month := addDays ⟨d.year, d.month, 1⟩ 32
    wageLabelOf next_month.year next_month.month
  else wageLabelOf d.year d.month

/-! ## Calendar lemmas for the 32-day rollover -/

/-- Unfolding addDays one step. -/
theorem addDays_succ (d : PyDate) (n : Nat) :
    addDays d (n + 1) = addDays (nextDay d) n := rfl

/-- addDays distributes over addition of day counts. -/
theorem addDays_add (a : Nat) : ∀ (d : PyDate) (b : Nat),
    addDays d (a + b) = addDays (addDays d a) b := by
  induction a with
  | zero => intro d b; simp [addDays]
  | succ n ih =>
    intro d b
    have h : n + 1 + b = (n + b) + 1 := by omega
    rw [h, addDays_succ, addDays_succ, ih]

/-- Every month has at least 28 and at most 31 days. -/
theorem daysInMonth_bounds (y : Int) (m : Nat) :
    28 ≤ daysInMonth y m ∧ daysInMonth y m ≤ 31 := by
  unfold daysInMonth
  split_ifs <;> omega

/-- Adding days inside the current month just moves the day field. -/
theorem addDays_in_month (y : Int) (m : Nat) (j : Nat) :
    ∀ day : Nat, 1 ≤ day → day + j ≤ daysInMonth y m →
    addDays ⟨y, m, day⟩ j = ⟨y, m, day + j⟩ := by
  induction j with
  | zero => intro day h1 h2; simp [addDays]
  | succ n ih =>
    intro day h1 h2
    rw [addDays_succ]
    have hlt : day < daysInMonth y m := by omega
    have hnext : nextDay ⟨y, m, day⟩ = ⟨y, m, day + 1⟩ := by
      unfold nextDay
      simp [hlt]
    rw [hnext, ih (day + 1) (by omega) (by omega)]
    congr 1
    omega

/-- The successor of the last day of a month is the first day of the next
month, rolling the year over after December. -/
theorem nextDay_month_end (y : Int) (m : Nat) (h1 : 1 ≤ m) (h2 : m ≤ 12) :
    nextDay ⟨y, m, daysInMonth y m⟩ =
      if m = 12 then ⟨y + 1, 1, 1⟩ else ⟨y, m + 1, 1⟩ := by
  unfold nextDay
  rcases Nat.lt_or_ge m 12 with hm | hm
  · have hne : ¬ m = 12 := by omega
    simp [hm, hne]
  · have heq : m = 12 := by omega
    subst heq
    simp

/-- The first day of a month moved 32 days forward lands in the following
month (January of the next year after December), for every year, in leap and
non-leap years alike. -/
theorem addDays_first_of_month_32 (y : Int) (m : Nat) (h1 : 1 ≤ m) (h2 : m ≤ 12) :
    (addDays ⟨y, m, 1⟩ 32).year = (if m = 12 then y + 1 else y) ∧
    (addDays ⟨y, m, 1⟩ 32).month = (if m = 12 then 1 else m + 1) := by
  obtain ⟨hlo, hhi⟩ := daysInMonth_bounds y m
  set dim := daysInMonth y m with hdim
  have hsplit : 32 = (dim - 1) + (33 - dim) := by omega
  rw [hsplit, addDays_add]
  have hstep1 : addDays ⟨y, m, 1⟩ (dim - 1) = ⟨y, m, dim⟩ := by
    have := addDays_in_month y m (dim - 1) 1 (by omega) (by omega)
    rw [this]
    congr 1
    omega
  rw [hstep1]
  have hsucc : 33 - dim = (32 - dim) + 1 := by omega
  rw [hsucc, addDays_succ, nextDay_month_end y m h1 h2]
  rcases Nat.decEq m 12 with hne | heq
  case isFalse =>
    simp only [if_neg hne]
    obtain ⟨hlo2, _⟩ := daysInMonth_bounds y (m + 1)
    rw [addDays_in_month y (m + 1) (32 - dim) 1 (by omega) (by omega)]
    simp [hne]
  case isTrue =>
    subst heq
    obtain ⟨hlo2, _⟩ := daysInMonth_bounds (y + 1) 1
    have h12 : (if (12 : Nat) = 12 then (⟨y + 1, 1, 1⟩ : PyDate) else ⟨y, 12 + 1, 1⟩)
        = ⟨y + 1, 1, 1⟩ := by simp
    rw [h12, addDays_in_month (y + 1) 1 (32 - dim) 1 (by omega) (by omega)]
    simp

/-- C3: for every valid date, the wage month of a day at least 26 is the
following calendar month (January of the next year for December 26 to 31,
March for February 26 to 29 in leap and non-leap years alike), and the wage
month of a day at most 25 is the own calendar month of the date. -/
theorem get_wage_month_cutover (d : PyDate) (hv : d.valid) :
    wageMonthOfDate d =
      if 26 ≤ d.day then
        (if d.month = 12 then wageLabelOf (d.year + 1) 1
         else wageLabelOf d.year (d.month + 1))
      else wageLabelOf d.year d.month := by
  obtain ⟨hm1, hm2, _, _⟩ := hv
  unfold wageMonthOfDate
  rcases Nat.lt_or_ge d.day 26 with hday | hday
  · have hlt : ¬ 26 ≤ d.day := by omega
    simp [hlt]
  · obtain ⟨hy, hm⟩ := addDays_first_of_month_32 d.year d.month hm1 hm2
    simp only [if_pos hday, hy, hm]
    rcases Nat.decEq d.month 12 with hne | heq
    case isFalse => simp [hne]
    case isTrue => simp [heq]

/-- Witness for get_wage_month_cutover at the leap date 2024-02-26: the label
is the March 2024 label; and at 2024-12-31 the label is the January 2025
label. -/
theorem get_wage_month_cutover_witness :
    (PyDate.mk 2024 2 26).valid ∧
    wageMonthOfDate ⟨2024, 2, 26⟩ = wageLabelOf 2024 3 ∧
    (PyDate.mk 2024 12 31).valid ∧
    wageMonthOfDate ⟨2024, 12, 31⟩ = wageLabelOf 2025 1 := by
  refine ⟨by decide, ?_, by decide, ?_⟩
  · rw [get_wage_month_cutover ⟨2024, 2, 26⟩ (by decide)]
    norm_num
  · rw [get_wage_month_cutover ⟨2024, 12, 31⟩ (by decide)]
    norm_num

/-! ## Theorems about calculate_net_salary -/

/-- C6 counterexample: at gross = 0 and usage = 1 (the Python default), the
breakdown is not all zero: its allowance field is PERSONAL_ALLOWANCE, 64926. -/
theorem net_salary_zero_gross_cex :
    (calculate_net_salary 0 1).allowance = 64926 ∧
    (calculate_net_salary 0 1).allowance ≠ 0 := by
  constructor
  · norm_num [calculate_net_salary, PERSONAL_ALLOWANCE]
  · norm_num [calculate_net_salary, PERSONAL_ALLOWANCE]

/-- Unfolding lemma for calculate_net_salary as an explicit record. -/
theorem calculate_net_salary_eq (g u : ℚ) :
    calculate_net_salary g u =
    { gross := g, pension := g * PENSION_RATE, union := g * UNION_RATE,
      tax_base := g - g * PENSION_RATE - g * UNION_RATE,
      income_tax_calc := (g - g * PENSION_RATE - g * UNION_RATE) * TAX_RATE_1,
      allowance := PERSONAL_ALLOWANCE * u,
      final_tax := max 0 ((g - g * PENSION_RATE - g * UNION_RATE) * TAX_RATE_1
        - PERSONAL_ALLOWANCE * u),
      net_salary := (g - g * PENSION_RATE - g * UNION_RATE)
        - max 0 ((g - g * PENSION_RATE - g * UNION_RATE) * TAX_RATE_1
          - PERSONAL_ALLOWANCE * u) } := rfl

/-- C6 amended: at gross = 0 every field of the breakdown except allowance is
zero, and allowance equals PERSONAL_ALLOWANCE times the usage fraction; and
for every gross at least 0 and usage fraction in the unit interval, the
final_tax field is nonnegative. -/
theorem net_salary_zero_gross_and_tax_nonneg (g u : ℚ)
    (hg : 0 ≤ g) (hu0 : 0 ≤ u) (hu1 : u ≤ 1) :
    (calculate_net_salary 0 u).gross = 0 ∧
    (calculate_net_salary 0 u).pension = 0 ∧
    (calculate_net_salary 0 u).union = 0 ∧
    (calculate_net_salary 0 u).tax_base = 0 ∧
    (calculate_net_salary 0 u).income_tax_calc = 0 ∧
    (calculate_net_salary 0 u).allowance = PERSONAL_ALLOWANCE * u ∧
    (calculate_net_salary 0 u).final_tax = 0 ∧
    (calculate_net_salary 0 u).net_salary = 0 ∧
    0 ≤ (calculate_net_salary g u).final_tax := by
  have hall : 0 ≤ PERSONAL_ALLOWANCE * u := by
    apply mul_nonneg _ hu0
    norm_num [PERSONAL_ALLOWANCE]
  have hft : max (0 : ℚ) (((0 : ℚ) - 0 * PENSION_RATE - 0 * UNION_RATE) * TAX_RATE_1
      - PERSONAL_ALLOWANCE * u) = 0 := by
    apply max_eq_left
    have h0 : ((0 : ℚ) - 0 * PENSION_RATE - 0 * UNION_RATE) * TAX_RATE_1 = 0 := by ring
    rw [h0]
    linarith
  simp only [calculate_net_salary_eq, hft]
  refine ⟨by trivial, by ring, by ring, by ring, by ring, by trivial, by trivial,
    by ring, le_max_left _ _⟩

/-- Witness for net_salary_zero_gross_and_tax_nonneg at g = 0, u = 1. -/
theorem net_salary_zero_gross_and_tax_nonneg_witness :
    (0 : ℚ) ≤ 0 ∧ (0 : ℚ) ≤ 1 ∧ (1 : ℚ) ≤ 1 ∧
    (calculate_net_salary 0 1).net_salary = 0 :=
  ⟨by norm_num, by norm_num, by norm_num,
    (net_salary_zero_gross_and_tax_nonneg 0 1 (by norm_num) (by norm_num)
      (by norm_num)).2.2.2.2.2.2.2.1⟩

/-- C7: for every nonnegative gross and usage fraction in the unit interval,
the breakdown exposes all eight intermediates, computed by the stated
formulas: pension and union fee as fixed rates on gross, tax base as gross
minus both, income tax as a single flat bracket on the tax base, allowance as
the scaled personal allowance, final tax clamped at zero, and net as tax base
minus final tax. -/
theorem net_salary_formulas (g u : ℚ) (hg : 0 ≤ g) (hu0 : 0 ≤ u) (hu1 : u ≤ 1) :
    (calculate_net_salary g u).gross = g ∧
    (calculate_net_salary g u).pension = g * PENSION_RATE ∧
    (calculate_net_salary g u).union = g * UNION_RATE ∧
    (calculate_net_salary g u).tax_base = g - g * PENSION_RATE - g * UNION_RATE ∧
    (calculate_net_salary g u).income_tax_calc =
      (calculate_net_salary g u).tax_base * TAX_RATE_1 ∧
    (calculate_net_salary g u).allowance = PERSONAL_ALLOWANCE * u ∧
    (calculate_net_salary g u).final_tax =
      max 0 ((calculate_net_salary g u).income_tax_calc
        - (calculate_net_salary g u).allowance) ∧
    (calculate_net_salary g u).net_salary =
      (calculate_net_salary g u).tax_base - (calculate_net_salary g u).final_tax :=
  ⟨rfl, rfl, rfl, rfl, rfl, rfl, rfl, rfl⟩

/-- Witness for net_salary_formulas at g = 100000, u = 1. -/
theorem net_salary_formulas_witness :
    (0 : ℚ) ≤ 100000 ∧ (0 : ℚ) ≤ 1 ∧ (1 : ℚ) ≤ 1 ∧
    (calculate_net_salary 100000 1).gross = 100000 :=
  ⟨by norm_num, by norm_num, by norm_num,
    (net_salary_formulas 100000 1 (by norm_num) (by norm_num) (by norm_num)).1⟩

/-- C10: for every nonnegative gross and usage fraction in the unit interval,
net pay never exceeds the tax base and the tax base never exceeds gross. -/
theorem net_salary_monotone_chain (g u : ℚ)
    (hg : 0 ≤ g) (hu0 : 0 ≤ u) (hu1 : u ≤ 1) :
    (calculate_net_salary g u).net_salary ≤ (calculate_net_salary g u).tax_base ∧
    (calculate_net_salary g u).tax_base ≤ (calculate_net_salary g u).gross := by
  have hmax := le_max_left (0 : ℚ)
    ((g - g * PENSION_RATE - g * UNION_RATE) * TAX_RATE_1 - PERSONAL_ALLOWANCE * u)
  have h1 : 0 ≤ g * PENSION_RATE := by
    apply mul_nonneg hg
    norm_num [PENSION_RATE]
  have h2 : 0 ≤ g * UNION_RATE := by
    apply mul_nonneg hg
    norm_num [UNION_RATE]
  simp only [calculate_net_salary_eq]
  constructor
  · linarith
  · linarith

/-- Witness for net_salary_monotone_chain at g = 100000, u = 1. -/
theorem net_salary_monotone_chain_witness :
    (0 : ℚ) ≤ 100000 ∧ (0 : ℚ) ≤ 1 ∧ (1 : ℚ) ≤ 1 ∧
    (calculate_net_salary 100000 1).net_salary ≤ (calculate_net_salary 100000 1).tax_base :=
  ⟨by norm_num, by norm_num, by norm_num,
    (net_salary_monotone_chain 100000 1 (by norm_num) (by norm_num) (by norm_num)).1⟩

/-! ## String dates: strptime of the format Y-m-d and the str branch of
get_wage_month -/

/-- Split a character list at every dash, as strptime splits the input of the
format string Y dash m dash d into its three fields. -/
def splitDash : List Char → List (List Char)
  | [] => [[]]
  | c :: cs =>
    if c = '-' then [] :: splitDash cs
    else
      match splitDash cs with
      | [] => [[c]]
      | g :: gs => (c :: g) :: gs

/-- Value of a list of decimal digit characters. -/
def digitsVal (l : List Char) : Nat :=
  l.foldl (fun a c => a * 10 + (c.toNat - 48)) 0

/-- Shape of a day field accepted by the strptime directive for the day:
one or two digit characters, or a space followed by one digit (the
space-padded single-digit day alternative of the CPython day pattern). The
two-digit all-digit forms whose value falls outside the real day range are
rejected by the range test of parseYMD, exactly the strings the CPython
pattern plus the date constructor reject. -/
def dayFieldOk (ds : List Char) : Bool :=
  (!ds.isEmpty && decide (ds.length ≤ 2) && ds.all Char.isDigit) ||
  (decide (ds.length = 2) && decide (ds.getD 0 'x' = ' ') &&
    (ds.getD 1 'x').isDigit && decide (ds.getD 1 'x' ≠ '0'))

/-- Numeric value of a day field: int of the matched group, which strips the
leading space of the space-padded form. -/
def dayFieldVal (ds : List Char) : Nat :=
  if ds.getD 0 'x' = ' ' then (ds.getD 1 '0').toNat - 48 else digitsVal ds

/-- Field validation of CPython strptime with the format Y-m-d: the year
directive matches exactly four digits, the month one or two digits, the day
one or two digits or a space and one digit; the three values must form a
real calendar date of a year at least 1 (the datetime range), else a
ValueError is raised, which get_wage_month turns into the sentinel. -/
def parseYMD (ys ms ds : List Char) : Option PyDate :=
  if (ys.length = 4 ∧ ys.all Char.isDigit ∧
      ms ≠ [] ∧ ms.length ≤ 2 ∧ ms.all Char.isDigit ∧
      dayFieldOk ds = true) ∧
     (1 ≤ digitsVal ys ∧ 1 ≤ digitsVal ms ∧ digitsVal ms ≤ 12 ∧
      1 ≤ dayFieldVal ds ∧ dayFieldVal ds ≤ daysInMonth (digitsVal ys) (digitsVal ms)) then
    some ⟨digitsVal ys, digitsVal ms, dayFieldVal ds⟩
  else none

/-- Mirror of `datetime.strptime(s, "%Y-%m-%d")` on the characters of the
input: three dash-separated fields passing the directive checks of parseYMD
and forming a real date, else failure. The three directives consume only
digits (or, for the day, a space and a digit), never a dash, so a parseable
input has exactly two dashes and the dash split recovers the three matched
groups. -/
def parseDateChars (l : List Char) : Option PyDate :=
  match splitDash l with
  | [ys, ms, ds] => parseYMD ys ms ds
  | _ => none

/-- The argument of `get_wage_month(date_obj)`: the source accepts either a
string or a datetime object (the isinstance test at line 164). -/
inductive DateInput where
  | str : String → DateInput
  | date : PyDate → DateInput

/-- Mirror of `get_wage_month` (src/app.py lines 163 to 170): a string input
is parsed first and an unparseable one yields the sentinel "Unknown". -/
def get_wage_month : DateInput → String
  | .str s =>
    match parseDateChars s.data with
    | none => "Unknown"
    | some d => wageMonthOfDate d
  | .date d => wageMonthOfDate d

/-! ## Parsing lemmas -/

/-- Reduction of parseDateChars once the split is known to have three parts. -/
theorem parseDateChars_eq_parseYMD (l a b c : List Char)
    (h : splitDash l = [a, b, c]) : parseDateChars l = parseYMD a b c := by
  unfold parseDateChars
  rw [h]

/-- Reduction of the str branch of get_wage_month on parse failure. -/
theorem get_wage_month_str_none (s : String)
    (h : parseDateChars s.data = none) : get_wage_month (.str s) = "Unknown" := by
  simp only [get_wage_month]
  rw [h]

/-- Reduction of the str branch of get_wage_month on parse success. -/
theorem get_wage_month_str_some (s : String) (d : PyDate)
    (h : parseDateChars s.data = some d) :
    get_wage_month (.str s) = wageMonthOfDate d := by
  simp only [get_wage_month]
  rw [h]

/-- Decimal digit characters are digits. -/
theorem digitChar_isDigit : ∀ x < 10, (Nat.digitChar x).isDigit = true := by decide

/-- Decimal digit characters are not the dash. -/
theorem digitChar_ne_dash : ∀ x < 10, Nat.digitChar x ≠ '-' := by decide

/-- Code point of a decimal digit character. -/
theorem digitChar_toNat : ∀ x < 10, (Nat.digitChar x).toNat = 48 + x := by decide

/-- splitDash peels off a dash-free prefix before a dash. -/
theorem splitDash_append (a : List Char) : ∀ b : List Char, ('-') ∉ a →
    splitDash (a ++ '-' :: b) = a :: splitDash b := by
  induction a with
  | nil => intro b _; simp [splitDash]
  | cons c cs ih =>
    intro b ha
    have hc : ¬ (c = '-') := by
      intro h
      exact ha (h ▸ List.mem_cons_self c cs)
    have ih2 := ih b (fun h => ha (List.mem_cons_of_mem c h))
    simp [splitDash, hc, ih2]

/-- splitDash of a dash-free list is that single part. -/
theorem splitDash_no_dash (a : List Char) (ha : ('-') ∉ a) : splitDash a = [a] := by
  induction a with
  | nil => simp [splitDash]
  | cons c cs ih =>
    have hc : ¬ (c = '-') := by
      intro h
      exact ha (h ▸ List.mem_cons_self c cs)
    have ih2 := ih (fun h => ha (List.mem_cons_of_mem c h))
    simp [splitDash, hc, ih2]

/-! ## ISO formatting of dates (Python str of a date) and the roundtrip -/

/-- Four-digit zero-padded rendering of the year, as the ISO format of
Python str(date) produces for years up to 9999. -/
def pad4Chars (n : Nat) : List Char :=
  [Nat.digitChar (n / 1000 % 10), Nat.digitChar (n / 100 % 10),
   Nat.digitChar (n / 10 % 10), Nat.digitChar (n % 10)]

/-- Mirror of `str(date_in)`: the ISO rendering YYYY-MM-DD. -/
def formatDateISO (d : PyDate) : String :=
  String.mk (pad4Chars d.year.toNat ++ '-' :: (pad2Chars d.month ++ '-' :: pad2Chars d.day))

/-- pad2Chars contains no dash. -/
theorem pad2Chars_no_dash (n : Nat) : ('-') ∉ pad2Chars n := by
  have h1 := digitChar_ne_dash (n / 10 % 10) (Nat.mod_lt _ (by norm_num))
  have h2 := digitChar_ne_dash (n % 10) (Nat.mod_lt _ (by norm_num))
  simp [pad2Chars]
  exact ⟨fun h => h1 h.symm, fun h => h2 h.symm⟩

/-- pad4Chars contains no dash. -/
theorem pad4Chars_no_dash (n : Nat) : ('-') ∉ pad4Chars n := by
  have h1 := digitChar_ne_dash (n / 1000 % 10) (Nat.mod_lt _ (by norm_num))
  have h2 := digitChar_ne_dash (n / 100 % 10) (Nat.mod_lt _ (by norm_num))
  have h3 := digitChar_ne_dash (n / 10 % 10) (Nat.mod_lt _ (by norm_num))
  have h4 := digitChar_ne_dash (n % 10) (Nat.mod_lt _ (by norm_num))
  simp [pad4Chars]
  exact ⟨fun h => h1 h.symm, fun h => h2 h.symm, fun h => h3 h.symm, fun h => h4 h.symm⟩

/-- pad2Chars is all digits. -/
theorem pad2Chars_all_digit (n : Nat) : (pad2Chars n).all Char.isDigit = true := by
  have h1 := digitChar_isDigit (n / 10 % 10) (Nat.mod_lt _ (by norm_num))
  have h2 := digitChar_isDigit (n % 10) (Nat.mod_lt _ (by norm_num))
  simp [pad2Chars, h1, h2]

/-- pad4Chars is all digits. -/
theorem pad4Chars_all_digit (n : Nat) : (pad4Chars n).all Char.isDigit = true := by
  have h1 := digitChar_isDigit (n / 1000 % 10) (Nat.mod_lt _ (by norm_num))
  have h2 := digitChar_isDigit (n / 100 % 10) (Nat.mod_lt _ (by norm_num))
  have h3 := digitChar_isDigit (n / 10 % 10) (Nat.mod_lt _ (by norm_num))
  have h4 := digitChar_isDigit (n % 10) (Nat.mod_lt _ (by norm_num))
  simp [pad4Chars, h1, h2, h3, h4]

/-- Parsing the two padded digits gives the value back, below 100. -/
theorem digitsVal_pad2 (n : Nat) (h : n < 100) : digitsVal (pad2Chars n) = n := by
  have h1 := digitChar_toNat (n / 10 % 10) (Nat.mod_lt _ (by norm_num))
  have h2 := digitChar_toNat (n % 10) (Nat.mod_lt _ (by norm_num))
  simp [digitsVal, pad2Chars, List.foldl, h1, h2]
  omega

/-- Parsing the four padded digits gives the value back, below 10000. -/
theorem digitsVal_pad4 (n : Nat) (h : n < 10000) : digitsVal (pad4Chars n) = n := by
  have h1 := digitChar_toNat (n / 1000 % 10) (Nat.mod_lt _ (by norm_num))
  have h2 := digitChar_toNat (n / 100 % 10) (Nat.mod_lt _ (by norm_num))
  have h3 := digitChar_toNat (n / 10 % 10) (Nat.mod_lt _ (by norm_num))
  have h4 := digitChar_toNat (n % 10) (Nat.mod_lt _ (by norm_num))
  simp [digitsVal, pad4Chars, List.foldl, h1, h2, h3, h4]
  omega

/-- Digit characters are not the space. -/
theorem digitChar_ne_space : ∀ x < 10, Nat.digitChar x ≠ ' ' := by decide

/-- A two-digit zero-padded day field passes the day field check. -/
theorem dayFieldOk_pad2 (n : Nat) : dayFieldOk (pad2Chars n) = true := by
  have h1 := digitChar_isDigit (n / 10 % 10) (Nat.mod_lt _ (by norm_num))
  have h2 := digitChar_isDigit (n % 10) (Nat.mod_lt _ (by norm_num))
  simp [dayFieldOk, pad2Chars, h1, h2]

/-- The value of a two-digit zero-padded day field is the value back. -/
theorem dayFieldVal_pad2 (n : Nat) (h : n < 100) : dayFieldVal (pad2Chars n) = n := by
  have hs := digitChar_ne_space (n / 10 % 10) (Nat.mod_lt _ (by norm_num))
  have hg : (pad2Chars n).getD 0 'x' = Nat.digitChar (n / 10 % 10) := rfl
  unfold dayFieldVal
  rw [hg, if_neg hs]
  exact digitsVal_pad2 n h

/-- Parsing the ISO rendering of a valid date of the datetime year range
gives the date back. -/
theorem parse_formatDateISO (p : PyDate) (hv : p.valid)
    (hy1 : 1 ≤ p.year) (hy2 : p.year ≤ 9999) :
    parseDateChars (formatDateISO p).data = some p := by
  obtain ⟨hm1, hm2, hd1, hd2⟩ := hv
  have hy : ((p.year.toNat : Int)) = p.year := Int.toNat_of_nonneg (by omega)
  have hyb1 : 1 ≤ p.year.toNat := by omega
  have hyb2 : p.year.toNat ≤ 9999 := by omega
  have hdlt : p.day < 100 := by
    have := (daysInMonth_bounds p.year p.month).2
    omega
  have hsplit : splitDash (formatDateISO p).data =
      [pad4Chars p.year.toNat, pad2Chars p.month, pad2Chars p.day] := by
    show splitDash (pad4Chars p.year.toNat ++ '-' ::
      (pad2Chars p.month ++ '-' :: pad2Chars p.day)) = _
    rw [splitDash_append _ _ (pad4Chars_no_dash _),
      splitDash_append _ _ (pad2Chars_no_dash _),
      splitDash_no_dash _ (pad2Chars_no_dash _)]
  rw [parseDateChars_eq_parseYMD _ _ _ _ hsplit]
  unfold parseYMD
  rw [digitsVal_pad4 _ (by omega), digitsVal_pad2 _ (by omega), dayFieldVal_pad2 _ hdlt]
  rw [if_pos]
  · rw [Option.some_inj]
    cases p
    simp only at hy
    simp [hy]
  · refine ⟨⟨by simp [pad4Chars], pad4Chars_all_digit _,
      by simp [pad2Chars], by simp [pad2Chars], pad2Chars_all_digit _,
      dayFieldOk_pad2 _⟩,
      hyb1, hm1, hm2, hd1, ?_⟩
    rw [hy]
    exact hd2

/-! ## The Unknown sentinel and the concrete labels -/

/-- Every label built by get_wage_month ends with a closing parenthesis, so
it is distinct from the sentinel "Unknown". -/
theorem wageLabelOf_ne_unknown (y : Int) (m : Nat) : wageLabelOf y m ≠ "Unknown" := by
  intro h
  have hd : (wageLabelOf y m).data = "Unknown".data := by rw [h]
  have hmem : (')') ∈ (wageLabelOf y m).data := by
    show (')') ∈ (intChars y ++ '-' :: (pad2Chars m ++ ' ' :: '(' :: ((MONTH_MAP m).data ++ [')'])))
    simp
  rw [hd] at hmem
  exact absurd hmem (by decide)

/-- The wage month of any date is a label, never the sentinel. -/
theorem wageMonthOfDate_ne_unknown (d : PyDate) : wageMonthOfDate d ≠ "Unknown" := by
  unfold wageMonthOfDate
  split_ifs with h
  · exact wageLabelOf_ne_unknown _ _
  · exact wageLabelOf_ne_unknown _ _

/-- C5: an unparseable string input makes get_wage_month return the explicit
sentinel "Unknown" (it is a total function, no exception escapes), and the
sentinel differs from the label of every parseable date, so it forms a
non-matching bucket for callers that filter by period label. -/
theorem get_wage_month_unknown_sentinel (s : String)
    (h : parseDateChars s.data = none) :
    get_wage_month (.str s) = "Unknown" ∧
    (∀ t : String, ∀ d : PyDate, parseDateChars t.data = some d →
      get_wage_month (.str t) ≠ "Unknown") := by
  refine ⟨get_wage_month_str_none s h, ?_⟩
  intro t d ht
  rw [get_wage_month_str_some t d ht]
  exact wageMonthOfDate_ne_unknown d

/-- Witness for get_wage_month_unknown_sentinel: the three-digit year string
"999-01-01" fails the exactly-four-digit year directive, so the result is the
sentinel, while the space-padded day string "2024-01- 5" parses and so gets a
real label, not the sentinel. -/
theorem get_wage_month_unknown_sentinel_witness :
    parseDateChars "999-01-01".data = none ∧
    get_wage_month (.str "999-01-01") = "Unknown" ∧
    parseDateChars "2024-01- 5".data = some ⟨2024, 1, 5⟩ ∧
    get_wage_month (.str "2024-01- 5") ≠ "Unknown" :=
  ⟨by decide, (get_wage_month_unknown_sentinel "999-01-01" (by decide)).1, by decide,
    (get_wage_month_unknown_sentinel "999-01-01" (by decide)).2
      "2024-01- 5" ⟨2024, 1, 5⟩ (by decide)⟩

/-- C4 counterexample: on the input date 2024-02-26 the source returns the
label "2024-03 (Mar)" (MONTH_MAP abbreviates March as "Mar"), not the label
"2024-03 (Mars)" stated by the claim. -/
theorem get_wage_month_feb26_label_cex :
    get_wage_month (.str "2024-02-26") = "2024-03 (Mar)" ∧
    get_wage_month (.str "2024-02-26") ≠ "2024-03 (Mars)" := by
  constructor
  · decide
  · decide

/-- C4 amended: labels have the shape year dash zero-padded month followed by
the month name of MONTH_MAP in parentheses; 2024-02-26 yields exactly
"2024-03 (Mar)" and 2024-12-31 yields "2025-01 (Jan)", whose year-month part
is 2025-01. -/
theorem get_wage_month_labels :
    get_wage_month (.str "2024-02-26") = "2024-03 (Mar)" ∧
    get_wage_month (.str "2024-02-26") = wageLabelOf 2024 3 ∧
    get_wage_month (.str "2024-12-31") = "2025-01 (Jan)" ∧
    get_wage_month (.str "2024-12-31") = wageLabelOf 2025 1 ∧
    ("2025-01 (Jan)").take 7 = "2025-01" := by
  refine ⟨by decide, by decide, by decide, by decide, by decide⟩

/-! ## Shift rows and the two write paths (src/app.py lines 314 to 319 and
420 to 451) -/

/-- A row of the Wages worksheet, columns A to I in order. -/
structure ShiftRow where
  StaffCode : String
  Date : String
  DayHrs : ℚ
  EveHrs : ℚ
  Sales : ℚ
  Wage : ℚ
  Bonus : ℚ
  Total : ℚ
  WageMonth : String
  deriving DecidableEq

/-- The row appended by the end-shift form (src/app.py lines 314 to 319):
wage, bonus and total come from calculate_pay, the wage month from
get_wage_month on the date object, and the stored Date is str(date_in). -/
def end_shift_row (code : String) (date_in : PyDate) (d_hrs e_hrs final_sales : ℚ) :
    ShiftRow :=
  { StaffCode := code, Date := formatDateISO date_in, DayHrs := d_hrs, EveHrs := e_hrs,
    Sales := final_sales,
    Wage := (calculate_pay d_hrs e_hrs final_sales).1,
    Bonus := (calculate_pay d_hrs e_hrs final_sales).2.1,
    Total := (calculate_pay d_hrs e_hrs final_sales).2.2,
    WageMonth := get_wage_month (.date date_in) }

/-- The row written by the save loop of the wages editor (src/app.py lines
420 to 451): the raw fields are re-read from the edited row (sales coerced
to int), the derived fields recomputed by calculate_pay and get_wage_month
on the date string. -/
def editor_update_row (code : String) (date_val : String) (d_hrs e_hrs : ℚ)
    (sales : ℤ) : ShiftRow :=
  { StaffCode := code, Date := date_val, DayHrs := d_hrs, EveHrs := e_hrs,
    Sales := (sales : ℚ),
    Wage := (calculate_pay d_hrs e_hrs (sales : ℚ)).1,
    Bonus := (calculate_pay d_hrs e_hrs (sales : ℚ)).2.1,
    Total := (calculate_pay d_hrs e_hrs (sales : ℚ)).2.2,
    WageMonth := get_wage_month (.str date_val) }

/-- C2: every Shift row written to the store, on the creation path and on the
editor path alike, satisfies Total equal to Wage plus Bonus and WageMonth
equal to get_wage_month of the stored Date, because both paths recompute the
derived fields from the raw fields before storing. -/
theorem shift_rows_invariant (code : String) (din : PyDate) (hv : din.valid)
    (hy1 : 1 ≤ din.year) (hy2 : din.year ≤ 9999)
    (d_hrs e_hrs final_sales : ℚ) (dateStr : String) (salesInt : ℤ) :
    (end_shift_row code din d_hrs e_hrs final_sales).Total =
      (end_shift_row code din d_hrs e_hrs final_sales).Wage +
      (end_shift_row code din d_hrs e_hrs final_sales).Bonus ∧
    (end_shift_row code din d_hrs e_hrs final_sales).WageMonth =
      get_wage_month (.str (end_shift_row code din d_hrs e_hrs final_sales).Date) ∧
    (editor_update_row code dateStr d_hrs e_hrs salesInt).Total =
      (editor_update_row code dateStr d_hrs e_hrs salesInt).Wage +
      (editor_update_row code dateStr d_hrs e_hrs salesInt).Bonus ∧
    (editor_update_row code dateStr d_hrs e_hrs salesInt).WageMonth =
      get_wage_month (.str (editor_update_row code dateStr d_hrs e_hrs salesInt).Date) := by
  refine ⟨rfl, ?_, rfl, rfl⟩
  show get_wage_month (.date din) = get_wage_month (.str (formatDateISO din))
  rw [get_wage_month_str_some (formatDateISO din) din
    (parse_formatDateISO din hv hy1 hy2)]
  rfl

/-- Witness for shift_rows_invariant at the date 2024-02-26, 8 day hours, no
evening hours, sales 150000. -/
theorem shift_rows_invariant_witness :
    (PyDate.mk 2024 2 26).valid ∧ (1 : Int) ≤ 2024 ∧ (2024 : Int) ≤ 9999 ∧
    (end_shift_row "77" ⟨2024, 2, 26⟩ 8 0 150000).WageMonth =
      get_wage_month (.str (end_shift_row "77" ⟨2024, 2, 26⟩ 8 0 150000).Date) :=
  ⟨by decide, by norm_num, by norm_num,
    (shift_rows_invariant "77" ⟨2024, 2, 26⟩ (by decide) (by norm_num) (by norm_num)
      8 0 150000 "2024-02-26" 150000).2.1⟩

/-! ## Dashboard aggregation (src/app.py lines 323 to 336) and the guarded
average of the live day page (src/app.py lines 264 to 266) -/

/-- The four figures the dashboard computes for the selected wage month. -/
structure DashStats where
  tot_pay : ℚ
  tot_bonus : ℚ
  tot_hours : ℚ
  shift_count : Nat
  deriving DecidableEq

/-- Mirror of the dashboard aggregation: filter the Wages rows on exact
equality of WageMonth with the selected month, then plain sums and a count
(src/app.py lines 330 to 336). -/
def dashboardStats (rows : List ShiftRow) (sel : String) : DashStats :=
  { tot_pay := ((rows.filter (fun r => r.WageMonth == sel)).map (·.Total)).sum,
    tot_bonus := ((rows.filter (fun r => r.WageMonth == sel)).map (·.Bonus)).sum,
    tot_hours := ((rows.filter (fun r => r.WageMonth == sel)).map (·.DayHrs)).sum +
      ((rows.filter (fun r => r.WageMonth == sel)).map (·.EveHrs)).sum,
    shift_count := (rows.filter (fun r => r.WageMonth == sel)).length }

/-- Mirror of the guarded average of the live day page (src/app.py lines 264
to 266): the mean sale amount, defined as 0 when there is no sale. -/
def avg_sale (amounts : List ℚ) : ℚ :=
  if 0 < amounts.length then amounts.sum / (amounts.length : ℚ) else 0

/-- The aggregate record named by the spec. -/
structure SpecAgg where
  total_pay : ℚ
  total_bonus : ℚ
  total_sales : ℚ
  total_hours : ℚ
  shift_count : Nat
  avg_hourly : ℚ
  deriving DecidableEq

/-- Definition following the words of the spec (section 4.4,
ReportAggregator), for comparison with the dashboard computation of the
source: filter to the period by exact label match, plain sums, and
avg_hourly equal to total_pay over total_hours, 0 when total_hours is 0. -/
def aggregateSpec (shifts : List ShiftRow) (period : String) : SpecAgg :=
  { total_pay := ((shifts.filter (fun r => r.WageMonth == period)).map (·.Total)).sum,
    total_bonus := ((shifts.filter (fun r => r.WageMonth == period)).map (·.Bonus)).sum,
    total_sales := ((shifts.filter (fun r => r.WageMonth == period)).map (·.Sales)).sum,
    total_hours := ((shifts.filter (fun r => r.WageMonth == period)).map
      (fun r => r.DayHrs + r.EveHrs)).sum,
    shift_count := (shifts.filter (fun r => r.WageMonth == period)).length,
    avg_hourly := if ((shifts.filter (fun r => r.WageMonth == period)).map
        (fun r => r.DayHrs + r.EveHrs)).sum = 0 then 0
      else ((shifts.filter (fun r => r.WageMonth == period)).map (·.Total)).sum /
        ((shifts.filter (fun r => r.WageMonth == period)).map
          (fun r => r.DayHrs + r.EveHrs)).sum }

/-- C8 counterexample: on a concrete one-row period the avg_hourly mandated
by the claim is 25, but the dashboard aggregation of the source computes only
the four figures 100, 7, 4 and 1 — no value it computes is the claimed
avg_hourly, because the source computes no hourly average at all. -/
theorem dashboard_no_avg_hourly_cex :
    (aggregateSpec [⟨"1", "2024-01-05", 4, 0, 9, 93, 7, 100, "P"⟩] "P").avg_hourly = 25 ∧
    dashboardStats [⟨"1", "2024-01-05", 4, 0, 9, 93, 7, 100, "P"⟩] "P" =
      { tot_pay := 100, tot_bonus := 7, tot_hours := 4, shift_count := 1 } ∧
    (25 : ℚ) ∉ [(100 : ℚ), 7, 4, 1] := by
  refine ⟨?_, ?_, ?_⟩
  · simp [aggregateSpec, List.filter]
    norm_num
  · simp [dashboardStats, List.filter]
  · norm_num

/-- C8 amended: the dashboard aggregation filters on exact match of the
stored WageMonth label and computes plain sums and a count; it computes no
hourly average. The division-by-zero-guarded average of the source is
avg_sale of the live day page, defined as 0 when the sale count is 0; the
empty sequence aggregates to zero for every sum and count, and its guarded
average is 0, with no exception possible (all functions are total). -/
theorem dashboard_aggregation (rows : List ShiftRow) (sel : String) :
    (∀ r ∈ rows.filter (fun r => r.WageMonth == sel), r.WageMonth = sel) ∧
    (dashboardStats rows sel).tot_pay =
      ((rows.filter (fun r => r.WageMonth == sel)).map (·.Total)).sum ∧
    (dashboardStats rows sel).tot_bonus =
      ((rows.filter (fun r => r.WageMonth == sel)).map (·.Bonus)).sum ∧
    (dashboardStats rows sel).tot_hours =
      ((rows.filter (fun r => r.WageMonth == sel)).map (·.DayHrs)).sum +
      ((rows.filter (fun r => r.WageMonth == sel)).map (·.EveHrs)).sum ∧
    (dashboardStats rows sel).shift_count =
      (rows.filter (fun r => r.WageMonth == sel)).length ∧
    dashboardStats [] sel = { tot_pay := 0, tot_bonus := 0, tot_hours := 0, shift_count := 0 } ∧
    avg_sale [] = 0 ∧
    (∀ amounts : List ℚ, amounts.length = 0 → avg_sale amounts = 0) := by
  refine ⟨?_, rfl, rfl, rfl, rfl, by simp [dashboardStats], by simp [avg_sale], ?_⟩
  · intro r hr
    have := List.mem_filter.mp hr
    exact eq_of_beq this.2
  · intro amounts h
    simp [avg_sale, h]

/-- Witness for dashboard_aggregation at the empty row list and month "X". -/
theorem dashboard_aggregation_witness :
    dashboardStats [] "X" = { tot_pay := 0, tot_bonus := 0, tot_hours := 0, shift_count := 0 } ∧
    avg_sale [] = 0 :=
  ⟨(dashboard_aggregation [] "X").2.2.2.2.2.1, (dashboard_aggregation [] "X").2.2.2.2.2.2.1⟩
